import Mathlib

/-!
Shallow embedding of `src/packages/table/src/components/ListToolBar/index.tsx`.

The component is a pure function of its props (plus two ambient context
values: the localized search placeholder and the media-query result
`isMobile`).  We embed the rendered React tree as an inductive `Node`:

* JSX child sequences are right-nested `Node.seq` chains terminated by
  `Node.null` (built with `nodes`); a falsy JSX child (`cond && x`,
  `cond ? x : null`) is a `Node.null` in its position, which renders
  nothing, exactly as in React.
* `className` strings all have the shape `{prefixCls}-suffix {hashId}`
  where `prefixCls` and `hashId` are render-constant decoration; the model
  keeps only the distinguishing suffix, as the enum `Cls` (`Cls.root` is
  the bare `prefixCls` of the outermost div).
* Opaque caller-supplied React elements / nodes are `Node.raw id` with a
  numeric identity.  A prop of type `ReactNode` is modelled as
  `Option Nat`: `some id` is a supplied truthy value, `none` is an absent
  (or falsy, which the source's truthiness tests treat identically) value.
* Caller-supplied callbacks are modelled by presence flags plus explicit
  invocation traces (`submitSearch`, the `clickCalls` field of
  `Node.clickSpan`): the trace lists, in order, the calls one activation
  of the attached handler performs.
* React keys are modelled only where the source computes them
  (`actionDom` children, tab items, setting-item slots), via
  `Node.keyed` / `Node.fragment` wrappers and the `key` field of tab
  items.
* `Input.Search` visual props (`style={{width: 200}}`) are out of scope;
  the placeholder is kept because the `{...search}` spread can override
  the localized default.  The legacy `Tabs.TabPane` children of the
  `Tabs` element duplicate its `items` prop and are not modelled
  separately.
-/

/-- Distinguishing suffix of a `className` (`Cls.bare` = element with no
class of its own, `Cls.root` = the outer div whose class is the bare
prefix). -/
inductive Cls where
  | root
  | container
  | left
  | title
  | search
  | filter
  | right
  | settingItems
  | settingItem
  | extraLine
  | bare
deriving DecidableEq

/-- One entry of the `items` array passed to the antd `Tabs` element:
`{label: item.tab, ...item, key: item.key?.toString() || index.toString()}`
(lines 111–115). -/
structure TabRendered where
  key : String
  label : Option Nat
deriving DecidableEq

/-- Rendered React tree.  `seq` is adjacency of JSX children; `null`
renders nothing.  `clickSpan` is the `<span key onClick>` of
`getSettingItem`; its `clickCalls` field records the calls one activation
of the attached `onClick` arrow function performs (each call forwards the
descriptor's `key`). -/
inductive Node where
  | null
  | seq (a b : Node)
  | raw (id : Nat)
  | searchInput (placeholder : String)
  | labelIconTip (tooltip : Option String) (label : Option Nat) (subTitle : Option Nat)
  | headerMenu
  | div (cls : Cls) (children : Node)
  | space (cls : Cls) (vertical : Bool) (children : Node)
  | tooltipWrap (tip : String) (child : Node)
  | clickSpan (key : Option String) (clickCalls : List (Option String)) (child : Node)
  | fragment (key : String) (child : Node)
  | keyed (key : Option String) (child : Node)
  | tabsStrip (activeKey : Option String) (items : List TabRendered) (hasOnChange : Bool)
      (extra : Node)
deriving DecidableEq

/-- Right-nested `seq` chain of a JSX child list. -/
def nodes : List Node → Node
  | [] => Node.null
  | n :: t => Node.seq n (nodes t)

/-- The `SearchProps` options-object: only the fields the component reads are
kept — a possible `placeholder` override carried by the `{...search}`
spread and the presence of the object's own `onSearch` callback. -/
structure SearchOpts where
  placeholder : Option String := none
  hasOnSearch : Bool := false
deriving DecidableEq

/-- The `search` prop (`SearchProps | React.ReactNode | boolean`).
`absent` covers `undefined` and `false` (both falsy, line 165); the
boolean `true` is not a valid element and is spread like an empty
options-object, so it is `opts {}`. -/
inductive SearchProp where
  | absent
  | element (id : Nat)
  | opts (o : SearchOpts)
deriving DecidableEq

/-- One entry of the `actions` array: either a valid React element
(possibly carrying its own key) or other renderable content (string,
number, …) which fails `React.isValidElement`. -/
inductive ActionItem where
  | element (key : Option String) (id : Nat)
  | content (id : Nat)
deriving DecidableEq

/-- One entry of the `settings` array: a valid React element, a
`ListToolBarSetting` descriptor object, or a falsy entry (`null`,
`undefined`, `false`, …). -/
inductive SettingProp where
  | element (id : Nat)
  | descriptor (icon : Option Nat) (tooltip : Option String) (key : Option String)
      (hasOnClick : Bool)
  | falsy
deriving DecidableEq

/-- One `TabPane` item of the `tabs` config.  `key = some k` is a truthy
key; an empty-string key behaves as absent because the source falls back
with `||`. -/
structure TabItem where
  key : Option String := none
  tab : Option Nat := none
deriving DecidableEq

/-- The `tabs` config (defaulted to `{}` in the destructuring).  An
`undefined` `items` and an empty `items` array behave identically in the
source, so both are `[]`. -/
structure TabsProp where
  activeKey : Option String := none
  hasOnChange : Bool := false
  items : List TabItem := []
deriving DecidableEq

/-- The props of `ListToolBar` (lines 129–144), with the source's
destructuring defaults.  `menu` keeps only presence: the `HeaderMenu`
component lives in a sibling file and is rendered opaquely.  `onSearch`
is the presence of the top-level search callback. -/
structure ToolBarProps where
  title : Option Nat := none
  subTitle : Option Nat := none
  tooltip : Option String := none
  search : SearchProp := SearchProp.absent
  onSearch : Bool := false
  actions : List ActionItem := []
  settings : List SettingProp := []
  multipleLine : Bool := false
  filter : Option Nat := none
  tabs : TabsProp := {}
  menu : Bool := false
deriving DecidableEq

/-- Embedding of `getSettingItem` (lines 70–96): a valid element is returned
unchanged; a truthy non-element is read as a descriptor: with both icon
and tooltip the icon is wrapped in a `Tooltip` around a keyed `span`
whose `onClick` arrow calls `onClick(key)` iff `onClick` is present;
otherwise the (possibly absent) `icon` itself is returned; a falsy entry
yields `null`. -/
def getSettingItem : SettingProp → Node
  | SettingProp.element i => Node.raw i
  | SettingProp.descriptor icon tooltip key hasOnClick =>
    match icon, tooltip with
    | some ic, some tp =>
        Node.tooltipWrap tp
          (Node.clickSpan key (if hasOnClick then [key] else []) (Node.raw ic))
    | some ic, none => Node.raw ic
    | none, _ => Node.null
  | SettingProp.falsy => Node.null

/-- Embedding of `searchNode` (lines 164–182): falsy `search` gives nothing, a
ready-made element is returned unchanged, and an options-object renders
an `Input.Search` whose placeholder is the localized default `ph` unless
the `{...search}` spread overrides it. -/
def searchNode (p : ToolBarProps) (ph : String) : Option Node :=
  match p.search with
  | SearchProp.absent => none
  | SearchProp.element i => some (Node.raw i)
  | SearchProp.opts o => some (Node.searchInput (o.placeholder.getD ph))

/-- A callback invocation observed when a search is submitted: the
top-level `onSearch` prop, or the options-object's own `onSearch`. -/
inductive SearchCall where
  | top (q : String)
  | inner (q : String)
deriving DecidableEq

/-- Invocation trace of submitting the query `q` in the rendered search
box.  The `onSearch` attribute written after the `{...search}` spread
(lines 176–179) first calls the top-level callback with `restParams[0]`
and then the options-object's own callback with the same arguments; a
caller-supplied ready-made element keeps its own behavior and no merged
handler is attached. -/
def submitSearch (p : ToolBarProps) (q : String) : List SearchCall :=
  match p.search with
  | SearchProp.opts o =>
      (if p.onSearch then [SearchCall.top q] else [])
        ++ (if o.hasOnSearch then [SearchCall.inner q] else [])
  | _ => []

/-- Embedding of `filtersNode` (lines 185–188). -/
def filtersNode (p : ToolBarProps) : Option Node :=
  match p.filter with
  | some f => some (Node.div Cls.filter (Node.raw f))
  | none => none

/-- Embedding of `hasTitle` (lines 191–194): `menu || title || subTitle || tooltip`. -/
def hasTitle (p : ToolBarProps) : Bool :=
  p.menu || p.title.isSome || p.subTitle.isSome || p.tooltip.isSome

/-- Key of the result of `React.cloneElement(element, config)`: a key
present in the config replaces the element's own key. -/
def cloneKey (elementKey : Option String) (configKey : Option String) : Option String :=
  match configKey with
  | some k => some k
  | none => elementKey

/-- The per-item body of `actions.map` in `actionDom` (lines 206–216): a
non-element is wrapped in a `Fragment` keyed by the index; a valid
element is cloned with config `{key: index, ...action.props}`, so its
key becomes the index. -/
def actionChild (index : Nat) (a : ActionItem) : Node :=
  match a with
  | ActionItem.content i => Node.fragment (toString index) (Node.raw i)
  | ActionItem.element k i => Node.keyed (cloneKey k (some (toString index))) (Node.raw i)

/-- Model of `Array.prototype.map` with the element index, starting at `i`. -/
def mapWithIndex (f : Nat → α → β) : Nat → List α → List β
  | _, [] => []
  | i, a :: t => f i a :: mapWithIndex f (i + 1) t

/-- Embedding of `actionDom` (lines 197–219): `null` for an empty list, otherwise an
unclassed centered `Space` of the mapped items.  (The defensive
non-array early return is unreachable for the typed `actions` prop and
is not modelled.) -/
def actionDom (p : ToolBarProps) : Option Node :=
  if p.actions.length < 1 then none
  else some (Node.space Cls.bare false (nodes (mapWithIndex actionChild 0 p.actions)))

/-- Embedding of `hasRight` (lines 221–225): truthiness of
`(hasTitle && searchNode) || (!multipleLine && filtersNode) || actionDom || settings?.length`. -/
def hasRight (p : ToolBarProps) (ph : String) : Bool :=
  (hasTitle p && (searchNode p ph).isSome)
    || (!p.multipleLine && (filtersNode p).isSome)
    || (actionDom p).isSome
    || (p.settings.length != 0)

/-- Embedding of `hasLeft` (lines 227–230): truthiness of
`tooltip || title || subTitle || menu || (!hasTitle && searchNode)`. -/
def hasLeft (p : ToolBarProps) (ph : String) : Bool :=
  p.tooltip.isSome || p.title.isSome || p.subTitle.isSome || p.menu
    || (!hasTitle p && (searchNode p ph).isSome)

/-- The title block `<div class=-title><LabelIconTip …/></div>`, written
inline twice in `leftTitleDom` (lines 242–244 and 251–253) with identical
markup. -/
def titleBlock (p : ToolBarProps) : Node :=
  Node.div Cls.title (Node.labelIconTip p.tooltip p.title p.subTitle)

/-- Embedding of `leftTitleDom` (lines 232–261): an empty placeholder div when only
the right side has content; a plain wrapper around the title block when
there is no menu and no fallback search; otherwise a `Space` whose three
child positions are the conditional title block, menu, and fallback
search box. -/
def leftTitleDom (p : ToolBarProps) (ph : String) : Node :=
  if !hasLeft p ph && hasRight p ph then Node.div Cls.left Node.null
  else if !p.menu && (hasTitle p || !(searchNode p ph).isSome) then
    Node.div Cls.left (titleBlock p)
  else
    Node.space Cls.left false (nodes
      [ if hasTitle p && !p.menu then titleBlock p else Node.null,
        if p.menu then Node.headerMenu else Node.null,
        if !hasTitle p && (searchNode p ph).isSome then
          Node.div Cls.search ((searchNode p ph).getD Node.null)
        else Node.null ])

/-- The settings block of `rightTitleDom` (lines 277–289): a `Space`
with one index-keyed `-setting-item` div per entry, each holding the
resolved setting (possibly `null`, leaving the slot empty). -/
def settingItems (p : ToolBarProps) : Node :=
  Node.space Cls.settingItems false (nodes
    (mapWithIndex
      (fun i s => Node.keyed (some (toString i)) (Node.div Cls.settingItem (getSettingItem s)))
      0 p.settings))

/-- Embedding of `rightTitleDom` (lines 263–291): nothing without `hasRight`,
otherwise a `Space` (vertical on mobile) whose four child positions are
the single-line filter area, the search box when the title claimed the
left side, the action list, and the settings block. -/
def rightTitleDom (p : ToolBarProps) (ph : String) (isMobile : Bool) : Node :=
  if !hasRight p ph then Node.null
  else
    Node.space Cls.right isMobile (nodes
      [ if !p.multipleLine then (filtersNode p).getD Node.null else Node.null,
        if hasTitle p && (searchNode p ph).isSome then
          Node.div Cls.search ((searchNode p ph).getD Node.null)
        else Node.null,
        (actionDom p).getD Node.null,
        if p.settings.length != 0 then settingItems p else Node.null ])

/-- Embedding of `titleNode` (lines 305–316): the `-container` div of left + right,
omitted entirely when both are absent. -/
def titleNode (p : ToolBarProps) (ph : String) (isMobile : Bool) : Node :=
  if !hasRight p ph && !hasLeft p ph then Node.null
  else Node.div Cls.container (nodes [leftTitleDom p ph, rightTitleDom p ph isMobile])

/-- The `items` array handed to the `Tabs` element (lines 111–115):
`key` falls back to the positional index via `||`. -/
def tabItemsRendered (items : List TabItem) : List TabRendered :=
  mapWithIndex (fun i it => { key := it.key.getD (toString i), label := it.tab }) 0 items

/-- Embedding of `ListToolBarTabBar` (lines 98–128): nothing unless `multipleLine`;
otherwise the `-extra-line` div holds either a `Tabs` strip with the
filter area as `tabBarExtraContent`, or the filter area alone. -/
def listToolBarTabBar (p : ToolBarProps) : Node :=
  if !p.multipleLine then Node.null
  else
    Node.div Cls.extraLine
      (if p.tabs.items.length != 0 then
        Node.tabsStrip p.tabs.activeKey (tabItemsRendered p.tabs.items) p.tabs.hasOnChange
          ((filtersNode p).getD Node.null)
      else (filtersNode p).getD Node.null)

/-- The returned tree (lines 318–328): an always-present outer div
(class = bare prefix) holding `titleNode` and the tab bar. -/
def listToolBar (p : ToolBarProps) (ph : String) (isMobile : Bool) : Node :=
  Node.div Cls.root (nodes [titleNode p ph isMobile, listToolBarTabBar p])

/-! ## Observation helpers -/

/-- Number of `div` elements with class `c` anywhere in the tree (the
search box wrapper is the `-search` div, the filter area the `-filter`
div, …).  Opaque `raw` nodes are atomic. -/
def countDiv (c : Cls) : Node → Nat
  | Node.null => 0
  | Node.seq a b => countDiv c a + countDiv c b
  | Node.raw _ => 0
  | Node.searchInput _ => 0
  | Node.labelIconTip _ _ _ => 0
  | Node.headerMenu => 0
  | Node.div c2 ch => (if c2 = c then 1 else 0) + countDiv c ch
  | Node.space _ _ ch => countDiv c ch
  | Node.tooltipWrap _ ch => countDiv c ch
  | Node.clickSpan _ _ ch => countDiv c ch
  | Node.fragment _ ch => countDiv c ch
  | Node.keyed _ ch => countDiv c ch
  | Node.tabsStrip _ _ _ extra => countDiv c extra

/-- Flatten one level of JSX child sequencing, dropping the positions
that render nothing. -/
def flat : Node → List Node
  | Node.null => []
  | Node.seq a b => flat a ++ flat b
  | Node.raw i => [Node.raw i]
  | Node.searchInput ph => [Node.searchInput ph]
  | Node.labelIconTip a b c => [Node.labelIconTip a b c]
  | Node.headerMenu => [Node.headerMenu]
  | Node.div c ch => [Node.div c ch]
  | Node.space c v ch => [Node.space c v ch]
  | Node.tooltipWrap t ch => [Node.tooltipWrap t ch]
  | Node.clickSpan k cs ch => [Node.clickSpan k cs ch]
  | Node.fragment k ch => [Node.fragment k ch]
  | Node.keyed k ch => [Node.keyed k ch]
  | Node.tabsStrip a i h e => [Node.tabsStrip a i h e]

/-- Normalize the child list of a top-level `Space` by dropping the
children that render nothing. -/
def normTop : Node → Node
  | Node.space c v ch => Node.space c v (nodes (flat ch))
  | n => n

/-- The React key carried by a rendered child. -/
def nodeKey : Node → Option String
  | Node.fragment k _ => some k
  | Node.keyed k _ => k
  | _ => none

/-! ## Definitions following the spec text (for refinement claims) -/

/-- Modelled from the spec: `search` "resolves to content" iff it is
supplied as `true`, an options-object, or a ready-made element. -/
def searchResolved (p : ToolBarProps) : Bool :=
  match p.search with
  | SearchProp.absent => false
  | _ => true

/-- Modelled from the spec: `hasTitle = any of {menu, title, subtitle,
tooltip} present`. -/
def hasTitleSpec (p : ToolBarProps) : Bool :=
  p.menu || p.title.isSome || p.subTitle.isSome || p.tooltip.isSome

/-- Modelled from the spec: `hasLeft = any of {tooltip, title, subtitle,
menu} present, or (not hasTitle and search resolves to content)`. -/
def hasLeftSpec (p : ToolBarProps) : Bool :=
  p.tooltip.isSome || p.title.isSome || p.subTitle.isSome || p.menu
    || (!hasTitleSpec p && searchResolved p)

/-- Modelled from the spec: `hasRight = (hasTitle and search present) or
(not multi-line and filter present) or actions non-empty or settings
non-empty`. -/
def hasRightSpec (p : ToolBarProps) : Bool :=
  (hasTitleSpec p && searchResolved p)
    || (!p.multipleLine && p.filter.isSome)
    || !p.actions.isEmpty
    || !p.settings.isEmpty

/-- Modelled from the spec: the left-region decision table of §4.4,
first match wins; the third row lists its children in order, including
only the present ones. -/
def leftRegionSpec (p : ToolBarProps) (ph : String) : Node :=
  if !hasLeftSpec p && hasRightSpec p then Node.div Cls.left Node.null
  else if !p.menu && (hasTitleSpec p || !searchResolved p) then
    Node.div Cls.left (titleBlock p)
  else
    Node.space Cls.left false (nodes
      ((if hasTitleSpec p && !p.menu then [titleBlock p] else [])
        ++ (if p.menu then [Node.headerMenu] else [])
        ++ (if !hasTitleSpec p && searchResolved p then
              [Node.div Cls.search ((searchNode p ph).getD Node.null)]
            else [])))

/-- Modelled from the spec: the secondary line of §4.6 — only in
multi-line mode; a tab strip with the filter area as trailing content
when tab items exist, else the filter area alone. -/
def secondaryLineSpec (p : ToolBarProps) : Node :=
  if !p.multipleLine then Node.null
  else
    Node.div Cls.extraLine
      (if !p.tabs.items.isEmpty then
        Node.tabsStrip p.tabs.activeKey (tabItemsRendered p.tabs.items) p.tabs.hasOnChange
          ((filtersNode p).getD Node.null)
      else (filtersNode p).getD Node.null)

/-! ## Basic lemmas -/

theorem searchNode_isSome (p : ToolBarProps) (ph : String) :
    (searchNode p ph).isSome = searchResolved p := by
  cases h : p.search <;> simp [searchNode, searchResolved, h]

theorem actionDom_isSome (p : ToolBarProps) :
    (actionDom p).isSome = !p.actions.isEmpty := by
  cases h : p.actions <;> simp [actionDom, h]

theorem settings_length_ne (p : ToolBarProps) :
    (p.settings.length != 0) = !p.settings.isEmpty := by
  cases h : p.settings <;> simp [h]

theorem countDiv_nodes (c : Cls) (l : List Node) :
    countDiv c (nodes l) = (l.map (countDiv c)).sum := by
  induction l with
  | nil => simp [nodes, countDiv]
  | cons n t ih => simp [nodes, countDiv, ih]

theorem countDiv_actionChild (c : Cls) (i : Nat) (a : ActionItem) :
    countDiv c (actionChild i a) = 0 := by
  cases a <;> simp [actionChild, countDiv]

theorem countDiv_actionList (c : Cls) (l : List ActionItem) (i : Nat) :
    countDiv c (nodes (mapWithIndex actionChild i l)) = 0 := by
  induction l generalizing i with
  | nil => simp [mapWithIndex, nodes, countDiv]
  | cons a t ih => simp [mapWithIndex, nodes, countDiv, countDiv_actionChild, ih]

theorem countDiv_actionDom (c : Cls) (p : ToolBarProps) :
    countDiv c ((actionDom p).getD Node.null) = 0 := by
  unfold actionDom
  split
  · simp [countDiv]
  · simp [countDiv, countDiv_actionList]

theorem countDiv_getSettingItem (c : Cls) (s : SettingProp) :
    countDiv c (getSettingItem s) = 0 := by
  cases s with
  | element i => simp [getSettingItem, countDiv]
  | descriptor icon tooltip key hasOnClick =>
    cases icon <;> cases tooltip <;> simp [getSettingItem, countDiv]
  | falsy => simp [getSettingItem, countDiv]

theorem countDiv_settingList (c : Cls) (h : c ≠ Cls.settingItem) (l : List SettingProp)
    (i : Nat) :
    countDiv c (nodes
      (mapWithIndex
        (fun i s =>
          Node.keyed (some (toString i)) (Node.div Cls.settingItem (getSettingItem s)))
        i l)) = 0 := by
  induction l generalizing i with
  | nil => simp [mapWithIndex, nodes, countDiv]
  | cons s t ih =>
    simp [mapWithIndex, nodes, countDiv, countDiv_getSettingItem, ih,
      (Ne.symm h : Cls.settingItem ≠ c)]

theorem countDiv_settingItems (c : Cls) (p : ToolBarProps) (h : c ≠ Cls.settingItem) :
    countDiv c (settingItems p) = 0 := by
  unfold settingItems
  simpa [countDiv] using countDiv_settingList c h p.settings 0

theorem countDiv_filtersNode (c : Cls) (p : ToolBarProps) :
    countDiv c ((filtersNode p).getD Node.null) =
      if Cls.filter = c && (filtersNode p).isSome then 1 else 0 := by
  cases h : p.filter with
  | none => simp [filtersNode, h, countDiv]
  | some f =>
    by_cases hc : Cls.filter = c <;> simp [filtersNode, h, countDiv, hc]

theorem countDiv_searchVal (c : Cls) (p : ToolBarProps) (ph : String) :
    countDiv c ((searchNode p ph).getD Node.null) = 0 := by
  cases h : p.search <;> simp [searchNode, h, countDiv]

theorem countDiv_titleBlock (c : Cls) (p : ToolBarProps) :
    countDiv c (titleBlock p) = if Cls.title = c then 1 else 0 := by
  by_cases hc : Cls.title = c <;> simp [titleBlock, countDiv, hc]

theorem hasLeft_of_hasTitle (p : ToolBarProps) (ph : String) (h : hasTitle p = true) :
    hasLeft p ph = true := by
  unfold hasTitle at h
  unfold hasLeft
  cases hm : p.menu <;> cases ht : p.title <;> cases hs : p.subTitle <;>
    cases htt : p.tooltip <;> simp_all

theorem searchNode_none_of_not_hasLeft (p : ToolBarProps) (ph : String)
    (h : hasLeft p ph = false) : (searchNode p ph).isSome = false := by
  cases hS : (searchNode p ph).isSome
  · rfl
  · exfalso
    cases hT : hasTitle p
    · unfold hasLeft at h
      rw [hT, hS] at h
      simp at h
    · have h2 := hasLeft_of_hasTitle p ph hT
      rw [h2] at h
      exact Bool.noConfusion h

theorem countDiv_search_left (p : ToolBarProps) (ph : String) :
    countDiv Cls.search (leftTitleDom p ph) =
      if !hasTitle p && (searchNode p ph).isSome then 1 else 0 := by
  unfold leftTitleDom
  split
  · next h1 =>
    have hL : hasLeft p ph = false := by
      cases hh : hasLeft p ph
      · rfl
      · rw [hh] at h1; simp at h1
    have hfb : (!hasTitle p && (searchNode p ph).isSome) = false := by
      cases hh : (!hasTitle p && (searchNode p ph).isSome)
      · rfl
      · unfold hasLeft at hL; rw [hh] at hL; simp at hL
    simp [countDiv, hfb]
  · split
    · next h1 h2 =>
      have hfb : (!hasTitle p && (searchNode p ph).isSome) = false := by
        cases hT : hasTitle p
        · cases hS : (searchNode p ph).isSome
          · simp [hS]
          · rw [hT, hS] at h2; simp at h2
        · simp [hT]
      simp [countDiv, titleBlock, hfb]
    · cases hT : hasTitle p <;> cases hS : (searchNode p ph).isSome <;>
        simp [countDiv, nodes, countDiv_searchVal, titleBlock, hT, hS,
          apply_ite (countDiv Cls.search)]

theorem countDiv_search_right (p : ToolBarProps) (ph : String) (m : Bool) :
    countDiv Cls.search (rightTitleDom p ph m) =
      if hasTitle p && (searchNode p ph).isSome then 1 else 0 := by
  unfold rightTitleDom
  split
  · next h =>
    have hR : hasRight p ph = false := by
      cases hh : hasRight p ph
      · rfl
      · rw [hh] at h; simp at h
    have hd : (hasTitle p && (searchNode p ph).isSome) = false := by
      cases hh : (hasTitle p && (searchNode p ph).isSome)
      · rfl
      · unfold hasRight at hR; rw [hh] at hR; simp at hR
    simp [countDiv, hd]
  · cases hd : (hasTitle p && (searchNode p ph).isSome) <;>
      simp [countDiv, nodes, hd, countDiv_searchVal, countDiv_actionDom,
        countDiv_filtersNode, countDiv_settingItems Cls.search p (by decide),
        countDiv_settingList Cls.search (by decide),
        apply_ite (countDiv Cls.search)]

theorem countDiv_search_tabBar (p : ToolBarProps) :
    countDiv Cls.search (listToolBarTabBar p) = 0 := by
  unfold listToolBarTabBar
  split
  · simp [countDiv]
  · split <;> simp [countDiv, countDiv_filtersNode]

theorem countDiv_search_total (p : ToolBarProps) (ph : String) (m : Bool) :
    countDiv Cls.search (listToolBar p ph m) =
      if (searchNode p ph).isSome then 1 else 0 := by
  unfold listToolBar titleNode
  split
  · next h =>
    have hLf : hasLeft p ph = false := by
      cases hh : hasLeft p ph
      · rfl
      · rw [hh] at h; simp at h
    have hS := searchNode_none_of_not_hasLeft p ph hLf
    simp [countDiv, nodes, countDiv_search_tabBar, hS]
  · have hL := countDiv_search_left p ph
    have hR := countDiv_search_right p ph m
    simp [countDiv, nodes, countDiv_search_tabBar, hL, hR]
    cases hT : hasTitle p <;> cases hS : (searchNode p ph).isSome <;> simp [hT, hS]

/-- C1: whenever `search` resolves to content (`true`, an options-object,
or a ready-made element), the rendered output contains the search box
wrapper exactly once — in the right region iff `hasTitle` holds, in the
left region iff it does not, and never in both or neither. -/
theorem claimC1 (p : ToolBarProps) (ph : String) (m : Bool) :
    countDiv Cls.search (listToolBar p ph m) = (if searchResolved p then 1 else 0)
      ∧ countDiv Cls.search (leftTitleDom p ph) =
          (if searchResolved p && !hasTitle p then 1 else 0)
      ∧ countDiv Cls.search (rightTitleDom p ph m) =
          (if searchResolved p && hasTitle p then 1 else 0) := by
  refine ⟨?_, ?_, ?_⟩
  · rw [countDiv_search_total, searchNode_isSome]
  · rw [countDiv_search_left, searchNode_isSome, Bool.and_comm]
  · rw [countDiv_search_right, searchNode_isSome, Bool.and_comm]

theorem filtersNode_isSome (p : ToolBarProps) : (filtersNode p).isSome = p.filter.isSome := by
  cases h : p.filter <;> simp [filtersNode, h]

theorem hasTitle_eq (p : ToolBarProps) : hasTitle p = hasTitleSpec p := rfl

theorem hasLeft_eq (p : ToolBarProps) (ph : String) : hasLeft p ph = hasLeftSpec p := by
  unfold hasLeft hasLeftSpec
  rw [searchNode_isSome]
  exact rfl

theorem hasRight_eq (p : ToolBarProps) (ph : String) : hasRight p ph = hasRightSpec p := by
  unfold hasRight hasRightSpec
  rw [searchNode_isSome, actionDom_isSome, settings_length_ne, filtersNode_isSome]
  exact rfl

/-- C2: the three derived presence flags the component computes coincide
with the spec's formulas (`hasTitle` from menu/title/subtitle/tooltip;
`hasLeft` adding the fallback search; `hasRight` from title-side search,
single-line filter, non-empty actions, non-empty settings) on every
input. -/
theorem claimC2 (p : ToolBarProps) (ph : String) :
    hasTitle p = hasTitleSpec p
      ∧ hasLeft p ph = hasLeftSpec p
      ∧ hasRight p ph = hasRightSpec p :=
  ⟨hasTitle_eq p, hasLeft_eq p ph, hasRight_eq p ph⟩

/-- C3 counterexample: `title` absent, `menu` absent and `search` set,
yet the search box is not in the left region — supplying `subTitle`
makes `hasTitle` true, which sends the search box to the right region. -/
theorem claimC3_cex :
    (({ subTitle := some 0, search := SearchProp.opts {} } : ToolBarProps).title = none
        ∧ ({ subTitle := some 0, search := SearchProp.opts {} } : ToolBarProps).menu = false
        ∧ searchResolved { subTitle := some 0, search := SearchProp.opts {} } = true)
      ∧ countDiv Cls.search
          (leftTitleDom { subTitle := some 0, search := SearchProp.opts {} } "x") = 0
      ∧ countDiv Cls.search
          (rightTitleDom { subTitle := some 0, search := SearchProp.opts {} } "x" false) = 1 := by
  refine ⟨⟨rfl, rfl, rfl⟩, rfl, rfl⟩

/-- C3 amended: if title, subtitle, tooltip and menu are all absent and
`search` resolves to content, the search box renders in the left region
and not in the right region. -/
theorem claimC3_amended (p : ToolBarProps) (ph : String) (m : Bool)
    (h1 : p.title = none) (h2 : p.subTitle = none) (h3 : p.tooltip = none)
    (h4 : p.menu = false) (h5 : searchResolved p = true) :
    countDiv Cls.search (leftTitleDom p ph) = 1
      ∧ countDiv Cls.search (rightTitleDom p ph m) = 0 := by
  have hT : hasTitle p = false := by simp [hasTitle, h1, h2, h3, h4]
  have hS : (searchNode p ph).isSome = true := by rw [searchNode_isSome]; exact h5
  constructor
  · rw [countDiv_search_left, hT, hS]
    rfl
  · rw [countDiv_search_right, hT, hS]
    rfl

theorem claimC3_witness :
    countDiv Cls.search (leftTitleDom { search := SearchProp.opts {} } "x") = 1
      ∧ countDiv Cls.search (rightTitleDom { search := SearchProp.opts {} } "x" false) = 0 :=
  claimC3_amended { search := SearchProp.opts {} } "x" false rfl rfl rfl rfl rfl

/-- C6: when `search` is an options-object (`true` included, as the empty
options-object) and a top-level `onSearch` is also supplied, submitting
a query invokes first the top-level callback and then the
options-object's own callback, each with the identical query string. -/
theorem claimC6 (p : ToolBarProps) (q : String) (o : SearchOpts)
    (h1 : p.search = SearchProp.opts o) (h2 : p.onSearch = true)
    (h3 : o.hasOnSearch = true) :
    submitSearch p q = [SearchCall.top q, SearchCall.inner q] := by
  simp [submitSearch, h1, h2, h3]

theorem claimC6_witness :
    submitSearch { search := SearchProp.opts { hasOnSearch := true }, onSearch := true } "abc"
      = [SearchCall.top "abc", SearchCall.inner "abc"] :=
  claimC6 { search := SearchProp.opts { hasOnSearch := true }, onSearch := true } "abc"
    { hasOnSearch := true } rfl rfl rfl

/-- C7 counterexample: with every optional field absent the component
still returns a container element — the fixed outer toolbar div (with
its two empty child positions) — so the composed output is not literally
empty. -/
theorem claimC7_cex :
    listToolBar {} "x" false
        = Node.div Cls.root (Node.seq Node.null (Node.seq Node.null Node.null))
      ∧ listToolBar {} "x" false ≠ Node.null := by
  refine ⟨rfl, ?_⟩
  decide

/-- C7 amended: with every optional field absent, the title container
and the secondary line are both omitted (nothing observable is rendered
inside the toolbar); the output is exactly the fixed outer wrapper div
whose two child positions are empty. -/
theorem claimC7_amended (ph : String) (m : Bool) :
    titleNode {} ph m = Node.null
      ∧ listToolBarTabBar {} = Node.null
      ∧ listToolBar {} ph m
          = Node.div Cls.root (Node.seq Node.null (Node.seq Node.null Node.null)) :=
  ⟨rfl, rfl, rfl⟩

/-- C8: `getSettingItem` maps a descriptor with icon and tooltip to the
icon in a tooltip wrapper whose span forwards the descriptor's key on
click (doing nothing when `onClick` is absent); a descriptor with icon
but no tooltip to the bare icon; and a descriptor without icon or a
falsy entry to nothing — it is total, so no malformed descriptor can
raise. -/
theorem claimC8 (ic : Nat) (tp : String) (k : Option String) (hc : Bool)
    (tp2 : Option String) :
    getSettingItem (SettingProp.descriptor (some ic) (some tp) k hc)
        = Node.tooltipWrap tp
            (Node.clickSpan k (if hc then [k] else []) (Node.raw ic))
      ∧ getSettingItem (SettingProp.descriptor (some ic) none k hc) = Node.raw ic
      ∧ getSettingItem (SettingProp.descriptor none tp2 k hc) = Node.null
      ∧ getSettingItem SettingProp.falsy = Node.null := by
  refine ⟨rfl, rfl, ?_, rfl⟩
  cases tp2 <;> rfl

/-- C9 counterexample: an action entry that is already a keyed element
does not retain its key: `cloneElement` receives the config
`{key: index, ...props}` and the config key wins, so the first action,
keyed "a", renders with key "0". -/
theorem claimC9_cex :
    actionDom { actions := [ActionItem.element (some "a") 7] }
        = some (Node.space Cls.bare false
            (Node.seq (Node.keyed (some "0") (Node.raw 7)) Node.null))
      ∧ nodeKey (actionChild 0 (ActionItem.element (some "a") 7)) ≠ some "a" := by
  refine ⟨rfl, ?_⟩
  decide

/-- C9 amended: every rendered action entry receives an index-based key:
a non-element entry is wrapped in a Fragment keyed by its index, and a
valid element is cloned with config key = index, which replaces any key
the element already carried. -/
theorem claimC9_amended (p : ToolBarProps) (i : Nat) (a : ActionItem) :
    nodeKey (actionChild i a) = some (toString i)
      ∧ (p.actions ≠ [] →
          actionDom p
            = some (Node.space Cls.bare false
                (nodes (mapWithIndex actionChild 0 p.actions)))) := by
  constructor
  · cases a <;> simp [actionChild, nodeKey, cloneKey]
  · intro h
    cases hA : p.actions with
    | nil => exact absurd hA h
    | cons x t => simp [actionDom, hA]

theorem claimC9_witness :
    nodeKey (actionChild 2 (ActionItem.content 5)) = some "2"
      ∧ actionDom ({ actions := [ActionItem.content 5] } : ToolBarProps)
          = some (Node.space Cls.bare false
              (nodes (mapWithIndex actionChild 0 [ActionItem.content 5]))) :=
  ⟨(claimC9_amended { actions := [ActionItem.content 5] } 2 (ActionItem.content 5)).1,
    (claimC9_amended { actions := [ActionItem.content 5] } 2 (ActionItem.content 5)).2
      (by decide)⟩

/-- C4: the left region follows the spec's first-match-wins decision
table: an empty placeholder when only the right side has content; a
single wrapper with just the title block when there is no menu and no
fallback search; otherwise a horizontal stack whose children, after
dropping the positions that render nothing, are exactly the present ones
of title block, menu, and fallback search box, in that order. -/
theorem claimC4 (p : ToolBarProps) (ph : String) :
    normTop (leftTitleDom p ph) = leftRegionSpec p ph := by
  unfold leftTitleDom leftRegionSpec
  rw [hasLeft_eq, hasRight_eq, searchNode_isSome, hasTitle_eq]
  by_cases hA : (!hasLeftSpec p && hasRightSpec p) = true
  · rw [if_pos hA, if_pos hA]
    rfl
  · rw [if_neg hA, if_neg hA]
    by_cases hB : (!p.menu && (hasTitleSpec p || !searchResolved p)) = true
    · rw [if_pos hB, if_pos hB]
      rfl
    · rw [if_neg hB, if_neg hB]
      cases h1 : (hasTitleSpec p && !p.menu) <;> cases h2 : p.menu <;>
        cases h3 : (!hasTitleSpec p && searchResolved p) <;>
        simp [normTop, nodes, flat, titleBlock, h1, h2, h3]

theorem tabBar_eq_spec (p : ToolBarProps) :
    listToolBarTabBar p = secondaryLineSpec p := by
  unfold listToolBarTabBar secondaryLineSpec
  cases hm : p.multipleLine <;> cases hI : p.tabs.items <;> simp [hm, hI]

theorem countDiv_filter_right (p : ToolBarProps) (ph : String) (m : Bool) :
    countDiv Cls.filter (rightTitleDom p ph m) =
      if !p.multipleLine && p.filter.isSome then 1 else 0 := by
  unfold rightTitleDom
  split
  · next h =>
    have hR : hasRight p ph = false := by
      cases hh : hasRight p ph
      · rfl
      · rw [hh] at h; simp at h
    have hd : (!p.multipleLine && (filtersNode p).isSome) = false := by
      cases hh : (!p.multipleLine && (filtersNode p).isSome)
      · rfl
      · unfold hasRight at hR; rw [hh] at hR; simp at hR
    rw [filtersNode_isSome] at hd
    simp [countDiv, hd]
  · cases hm : p.multipleLine <;> cases hf : p.filter <;>
      simp [countDiv, nodes, hm, hf, filtersNode, countDiv_actionDom,
        countDiv_searchVal, countDiv_settingItems Cls.filter p (by decide),
        countDiv_settingList Cls.filter (by decide),
        apply_ite (countDiv Cls.filter)]

theorem countDiv_filter_tabBar (p : ToolBarProps) :
    countDiv Cls.filter (listToolBarTabBar p) =
      if p.multipleLine && p.filter.isSome then 1 else 0 := by
  unfold listToolBarTabBar
  split
  · next h =>
    have hm : p.multipleLine = false := by
      cases hh : p.multipleLine
      · rfl
      · rw [hh] at h; simp at h
    simp [countDiv, hm]
  · next h =>
    have hm : p.multipleLine = true := by
      cases hh : p.multipleLine
      · rw [hh] at h; simp at h
      · rfl
    split <;> cases hf : p.filter <;> simp [countDiv, filtersNode, hf, hm]

/-- C5: the secondary line matches §4.6 — only in multi-line mode, a tab
strip carrying the filter area as trailing content when tab items exist,
the filter area alone otherwise, and nothing at all outside multi-line
mode; moreover the filter div sits in the primary right region iff
multi-line is off and a filter is supplied, and in the secondary line
iff multi-line is on and a filter is supplied. -/
theorem claimC5 (p : ToolBarProps) (ph : String) (m : Bool) :
    listToolBarTabBar p = secondaryLineSpec p
      ∧ countDiv Cls.filter (rightTitleDom p ph m)
          = (if !p.multipleLine && p.filter.isSome then 1 else 0)
      ∧ countDiv Cls.filter (listToolBarTabBar p)
          = (if p.multipleLine && p.filter.isSome then 1 else 0) :=
  ⟨tabBar_eq_spec p, countDiv_filter_right p ph m, countDiv_filter_tabBar p⟩

theorem mapWithIndex_falsy (l : List SettingProp) (h : ∀ s ∈ l, s = SettingProp.falsy) :
    ∀ i, mapWithIndex
        (fun i s =>
          Node.keyed (some (toString i)) (Node.div Cls.settingItem (getSettingItem s)))
        i l
      = mapWithIndex
          (fun i _ => Node.keyed (some (toString i)) (Node.div Cls.settingItem Node.null))
          i l := by
  induction l with
  | nil => intro i; rfl
  | cons s t ih =>
    intro i
    have hs : s = SettingProp.falsy := h s (by simp)
    simp only [mapWithIndex, hs]
    rw [show getSettingItem SettingProp.falsy = Node.null from rfl,
      ih (fun x hx => h x (by simp [hx])) (i + 1)]

/-- C10: a non-empty settings list with only falsy entries still forces
the right region: `hasRight` is true, the settings block renders one
empty styled setting-item slot per entry, an empty left placeholder div
appears whenever nothing occupies the left side, and the title container
materializes — so such a toolbar is not observably empty. -/
theorem claimC10 (p : ToolBarProps) (ph : String) (m : Bool)
    (h1 : p.settings ≠ []) (h2 : ∀ s ∈ p.settings, s = SettingProp.falsy) :
    hasRight p ph = true
      ∧ settingItems p
          = Node.space Cls.settingItems false (nodes (mapWithIndex
              (fun i _ => Node.keyed (some (toString i)) (Node.div Cls.settingItem Node.null))
              0 p.settings))
      ∧ (hasLeft p ph = false → leftTitleDom p ph = Node.div Cls.left Node.null)
      ∧ titleNode p ph m ≠ Node.null := by
  have hlen : (p.settings.length != 0) = true := by
    cases hs : p.settings
    · exact absurd hs h1
    · simp [hs]
  have hR : hasRight p ph = true := by simp [hasRight, hlen]
  refine ⟨hR, ?_, ?_, ?_⟩
  · unfold settingItems
    rw [mapWithIndex_falsy p.settings h2 0]
  · intro hL
    simp [leftTitleDom, hL, hR]
  · simp [titleNode, hR]

theorem claimC10_witness :
    hasRight ({ settings := [SettingProp.falsy] } : ToolBarProps) "x" = true
      ∧ settingItems { settings := [SettingProp.falsy] }
          = Node.space Cls.settingItems false (nodes (mapWithIndex
              (fun i _ =>
                Node.keyed (some (toString i)) (Node.div Cls.settingItem Node.null))
              0 ([SettingProp.falsy] : List SettingProp)))
      ∧ (hasLeft ({ settings := [SettingProp.falsy] } : ToolBarProps) "x" = false →
          leftTitleDom { settings := [SettingProp.falsy] } "x" = Node.div Cls.left Node.null)
      ∧ titleNode { settings := [SettingProp.falsy] } "x" false ≠ Node.null :=
  claimC10 { settings := [SettingProp.falsy] } "x" false (by decide) (by decide)
